import Mathlib

/-!
Verification of the gofer RPC messaging engine (client policies, request
consumer, reply-queue reader) against its natural-language specification.

The definitions below are a shallow embedding of the Python source:

  * src/gofer/rmi/policy.py         — timeout, Synchronous, Asynchronous, Trigger
  * src/gofer/messaging/consumer.py — Consumer, Reader, RequestConsumer
  * src/gofer/transport/qpid/consumer.py — the transport Reader (its search
    delegates to gofer.messaging.model.search, which is not in the tree;
    that function is modelled from the spec)

Time-bounded queue reads are embedded as reads from an explicit list of
envelopes: the list holds exactly the messages that arrive before the
read timeout expires, and exhausting the list is the timeout outcome.
Effects (producer sends, acks, watchdog tracking, reader open and close)
are recorded in explicit event traces.
-/

namespace Gofer

/-- The structured exception carried in a failed Return: either the
server-side WindowMissed (carrying the request sn) or an exception raised
by a handler, reduced to its kind and message. -/
inductive Xval where
  | windowMissed (sn : String)
  | raised (kind message : String)
deriving DecidableEq, Repr

/-- Modelled from the spec: Return (gofer.messaging.dispatcher, not under
src/) is a tagged variant, succeeded with a return value or failed with a
structured exception; succeeded and failed are mutually exclusive. -/
inductive RmiResult where
  | succeeded (retval : String)
  | failed (x : Xval)
deriving DecidableEq, Repr

/-- A delivery window: begin time and duration (seconds). -/
structure Window where
  wbegin : Int
  duration : Int
deriving DecidableEq, Repr

/-- The wire envelope, with the fields the verified components read.
Optional fields are Option; a missing field is none. -/
structure Envelope where
  version : Option String
  sn : String
  replyto : Option String
  request : String
  result : Option RmiResult
  status : Option String
  window : Option Window
  any : Option String
deriving DecidableEq, Repr

/-- Python truthiness of an optional string: None and the empty string
are falsy. -/
def optStrTruthy : Option String → Bool
  | none => false
  | some s => !s.isEmpty

/-- Modelled from the spec: Window.past (gofer.messaging.window, not under
src/): now is strictly beyond begin + duration; an absent window is always
present. -/
def windowPast (now : Int) : Option Window → Bool
  | none => false
  | some w => decide (now > w.wbegin + w.duration)

/-- Modelled from the spec: Window.future (gofer.messaging.window, not
under src/): now is strictly before begin; an absent window is always
present. -/
def windowFuture (now : Int) : Option Window → Bool
  | none => false
  | some w => decide (now < w.wbegin)

/-- Outcome of one Reader.search call over a queue of envelopes:
the found envelope (none when the queue is exhausted, the timeout case),
the envelopes left on the queue after the search, and the non-matching
envelopes that were read, acked and discarded along the way. -/
structure SearchResult where
  found : Option Envelope
  rest : List Envelope
  acked : List Envelope
deriving DecidableEq, Repr

/-- Reader.search of src/gofer/messaging/consumer.py: repeatedly read the
next envelope; a non-matching sn is acked and discarded, the first match
is returned (not acked by search itself), queue exhaustion is the timeout
and returns none. -/
def readerSearch (sn : String) : List Envelope → SearchResult
  | [] => ⟨none, [], []⟩
  | e :: q =>
    if e.sn = sn then ⟨some e, q, []⟩
    else
      let r := readerSearch sn q
      ⟨r.found, r.rest, e :: r.acked⟩

/-- Modelled from the spec: gofer.messaging.model.search (not under src/),
to which the transport Reader of src/gofer/transport/qpid/consumer.py
delegates: repeatedly reads and discards (with ack) envelopes whose sn
does not match; returns the first match or none on timeout. -/
def modelSearch (sn : String) : List Envelope → SearchResult
  | [] => ⟨none, [], []⟩
  | e :: q =>
    if e.sn = sn then ⟨some e, q, []⟩
    else
      let r := modelSearch sn q
      ⟨r.found, r.rest, e :: r.acked⟩

/-- The timeout option normalizer of src/gofer/rmi/policy.py: None yields
the caller-supplied default, a scalar is applied to both phases, a pair is
taken as is. The default is passed explicitly, mirroring the two call
sites (Synchronous passes (10, 90); Asynchronous passes (None, None)). -/
inductive TimeoutOpt where
  | absent
  | scalar (n : Nat)
  | pair (a b : Option Nat)
deriving DecidableEq, Repr

def timeoutOf (dflt : Option Nat × Option Nat) : TimeoutOpt → Option Nat × Option Nat
  | .absent => dflt
  | .scalar n => (some n, some n)
  | .pair a b => (a, b)

/-- The Synchronous policy state: the normalized (start, final) timeout
and the private reply queue, created once in the constructor. Queue names
are drawn from a uuid counter; the constructor returns the advanced
counter. -/
structure SyncPolicy where
  timeout : Option Nat × Option Nat
  queueName : Nat
  queueDurable : Bool
deriving DecidableEq, Repr

/-- Synchronous.__init__ of src/gofer/rmi/policy.py: normalize the timeout
with default (10, 90) and allocate the private non-durable reply queue
named by a fresh uuid. -/
def syncInit (tm : TimeoutOpt) (uuidCtr : Nat) : SyncPolicy × Nat :=
  (⟨timeoutOf (some 10, some 90) tm, uuidCtr, false⟩, uuidCtr + 1)

/-- Events produced by one Synchronous.send call. -/
inductive SyncEvent where
  | produced (dest : String) (sn : String) (ttl : Option Nat) (replyto : Nat)
  | readerOpened (queue : Nat)
  | acked
  | readerClosed
deriving DecidableEq, Repr

/-- The value returned or the exception raised by Synchronous.send. -/
inductive SendOutcome where
  | returned (retval : String)
  | remoteRaised (x : Xval)
  | requestTimeout (sn : String) (index : Nat)
deriving DecidableEq, Repr

structure SendResult where
  outcome : SendOutcome
  events : List SyncEvent
deriving DecidableEq, Repr

/-- Synchronous.__onreply: wrap the envelope result as a Return; a
succeeded Return yields its retval, a failed one raises the reconstructed
remote exception. A reply envelope with no result field at all decodes to
a Return that did not succeed. -/
def onreply : Option RmiResult → SendOutcome
  | some (.succeeded v) => .returned v
  | some (.failed x) => .remoteRaised x
  | none => .remoteRaised (.raised "Exception" "malformed reply")

/-- Synchronous.send of src/gofer/rmi/policy.py: produce the request with
replyto the private queue and ttl the first timeout component, open a
reader on the queue, await the STARTED reply (search with the first
timeout; none raises RequestTimeout(sn, 0); a truthy status is the
started notification; otherwise __onreply handles the envelope as final,
raising on failure — but its returned value is discarded and the final
phase still runs), then await the FINAL reply (search with the second
timeout; none raises RequestTimeout(sn, 1)); the reader is always closed
on the way out. The replies list holds the envelopes arriving on the
reply queue before the timeouts expire. -/
def syncSend (p : SyncPolicy) (dest : String) (sn : String)
    (replies : List Envelope) : SendResult :=
  let pre : List SyncEvent :=
    [.produced dest sn p.timeout.1 p.queueName, .readerOpened p.queueName]
  let s1 := readerSearch sn replies
  match s1.found with
  | none => ⟨.requestTimeout sn 0, pre ++ [.readerClosed]⟩
  | some env =>
    if optStrTruthy env.status then
      let s2 := readerSearch sn s1.rest
      match s2.found with
      | none => ⟨.requestTimeout sn 1, pre ++ [.acked, .readerClosed]⟩
      | some env2 => ⟨onreply env2.result, pre ++ [.acked, .acked, .readerClosed]⟩
    else
      match onreply env.result with
      | .remoteRaised x => ⟨.remoteRaised x, pre ++ [.acked, .readerClosed]⟩
      | _ =>
        let s2 := readerSearch sn s1.rest
        match s2.found with
        | none => ⟨.requestTimeout sn 1, pre ++ [.acked, .readerClosed]⟩
        | some env2 => ⟨onreply env2.result, pre ++ [.acked, .acked, .readerClosed]⟩

/-- The reply queue named in the produced request of a send trace. -/
def producedReplyTo (events : List SyncEvent) : Option Nat :=
  events.findSome? fun a =>
    match a with
    | .produced _ _ _ q => some q
    | _ => none

/-- Actions produced on the server side by Consumer.received and
RequestConsumer.dispatch. -/
inductive CAction where
  | sent (dest : String) (sn : String) (any : Option String)
      (status : Option String) (result : Option RmiResult)
  | pendingAdd (e : Envelope)
  | dispatched (request : String)
  | acked
deriving DecidableEq, Repr

def isSent : CAction → Bool
  | .sent _ _ _ _ _ => true
  | _ => false

def isAck : CAction → Bool
  | .acked => true
  | _ => false

def isDispatched : CAction → Bool
  | .dispatched _ => true
  | _ => false

/-- RequestConsumer.sendreply of src/gofer/messaging/consumer.py: send the
final reply, carrying the envelope's sn and any, to replyto; nothing is
sent when replyto is absent or empty. -/
def sendreply (e : Envelope) (result : RmiResult) : List CAction :=
  match e.replyto with
  | none => []
  | some r => if r.isEmpty then [] else [.sent r e.sn e.any none (some result)]

/-- RequestConsumer.sendstarted of src/gofer/messaging/consumer.py: send
the status=started notification, carrying the envelope's sn and any, to
replyto; nothing is sent when replyto is absent or empty. -/
def sendstarted (e : Envelope) : List CAction :=
  match e.replyto with
  | none => []
  | some r => if r.isEmpty then [] else [.sent r e.sn e.any (some "started") none]

/-- The three outcomes of RequestConsumer.checkwindow: WindowPending
(future window, raised after adding to the pending queue), WindowMissed
(past window), or proceed. The code tests future before past. -/
inductive WindowCheck where
  | pending
  | missed
  | ok
deriving DecidableEq, Repr

def checkwindow (now : Int) (e : Envelope) : WindowCheck :=
  if windowFuture now e.window then .pending
  else if windowPast now e.window then .missed
  else .ok

/-- RequestConsumer.dispatch of src/gofer/messaging/consumer.py: check the
window (a future window adds the envelope to the pending queue and
produces nothing else; a past window turns into a failed WindowMissed
Return sent as the reply), otherwise send started, dispatch the request
through the RMI dispatcher df, and send the dispatch result as the final
reply. df is total: the dispatcher captures handler exceptions as failed
Returns and never lets them propagate. -/
def rcDispatch (df : String → RmiResult) (now : Int) (e : Envelope) : List CAction :=
  match checkwindow now e with
  | .pending => [.pendingAdd e]
  | .missed => sendreply e (.failed (.windowMissed e.sn))
  | .ok => sendstarted e ++ (.dispatched e.request :: sendreply e (df e.request))

/-- Consumer.valid of src/gofer/messaging/consumer.py: the envelope's
version must equal the running protocol version. -/
def consumerValid (ver : String) (e : Envelope) : Bool :=
  e.version == some ver

/-- Consumer.received of src/gofer/messaging/consumer.py, composed with
RequestConsumer.dispatch: dispatch the envelope when its version is valid
(drop it otherwise), then acknowledge the inbound message. -/
def received (ver : String) (df : String → RmiResult) (now : Int)
    (e : Envelope) : List CAction :=
  (if consumerValid ver e then rcDispatch df now e else []) ++ [.acked]

/-- The Asynchronous policy state of src/gofer/rmi/policy.py: correlation
tag, normalized timeout, and whether a watchdog reference is present. -/
structure AsyncPolicy where
  ctag : Option String
  timeout : Option Nat × Option Nat
  watchdog : Bool
deriving DecidableEq, Repr

/-- Asynchronous.__init__: the timeout is normalized with default
(None, None). -/
def asyncInit (ctag : Option String) (tm : TimeoutOpt) (watchdog : Bool) : AsyncPolicy :=
  ⟨ctag, timeoutOf (none, none) tm, watchdog⟩

/-- Modelled from the spec: Queue (gofer.messaging, not under src/)
stringifies to a broker-native address for the named queue; only its
emptiness matters here, so the name itself stands for the address. -/
def queueStr (name : String) : String :=
  name

/-- Asynchronous.replyto: the address of the queue named by ctag when
ctag is truthy, else none. -/
def asyncReplyto (p : AsyncPolicy) : Option String :=
  match p.ctag with
  | none => none
  | some c => if c.isEmpty then none else some (queueStr c)

/-- Events produced by the asynchronous send path. -/
inductive AEvent where
  | produced (dest : String) (sn : String) (ttl : Option Nat) (replyto : Option String)
  | tracked (sn : String) (replyto : String) (timeout : Option Nat × Option Nat)
deriving DecidableEq, Repr

def isProduced : AEvent → Bool
  | .produced _ _ _ _ => true
  | _ => false

def isTracked : AEvent → Bool
  | .tracked _ _ _ => true
  | _ => false

def hasTracked (events : List AEvent) : Bool :=
  events.any isTracked

/-- Asynchronous.notifywatchdog of src/gofer/rmi/policy.py: track the
request iff replyto is truthy, ctag is truthy, both timeout components
are not None, and the watchdog reference is present. -/
def notifywatchdog (p : AsyncPolicy) (sn : String) (replyto : Option String) : List AEvent :=
  if optStrTruthy replyto && optStrTruthy p.ctag
      && (p.timeout.1).isSome && (p.timeout.2).isSome && p.watchdog then
    [.tracked sn (replyto.getD "") p.timeout]
  else []

/-- The Trigger state of src/gofer/rmi/policy.py: the pending flag is set
at construction and cleared by the first invocation. -/
structure TriggerState where
  pending : Bool
  sn : String
  dest : String
  request : String
deriving DecidableEq, Repr

/-- Trigger.__init__: pending, with a fresh serial number. -/
def triggerInit (sn dest request : String) : TriggerState :=
  ⟨true, sn, dest, request⟩

/-- Trigger.__send: produce the request with the policy's replyto and ttl
the first timeout component, then notify the watchdog. -/
def triggerSend (p : AsyncPolicy) (t : TriggerState) : List AEvent :=
  let replyto := asyncReplyto p
  .produced t.dest t.sn p.timeout.1 replyto :: notifywatchdog p t.sn replyto

/-- The outcome of Trigger.__call__: the request was sent, or the
already-executed exception was raised. -/
inductive CallOutcome where
  | sent
  | raisedAlreadyExecuted
deriving DecidableEq, Repr

/-- Trigger.__call__ of src/gofer/rmi/policy.py: if pending, send and
clear the flag; else raise without sending. -/
def triggerCall (p : AsyncPolicy) (t : TriggerState) :
    CallOutcome × TriggerState × List AEvent :=
  if t.pending then (.sent, ⟨false, t.sn, t.dest, t.request⟩, triggerSend p t)
  else (.raisedAlreadyExecuted, t, [])

/-- An envelope used to witness the search theorem at a concrete input. -/
def envW : Envelope :=
  ⟨some "0.7", "sn-1", none, "req", none, none, none, none⟩

/-- A Synchronous policy built from absent timeout options, queue uuid 0. -/
def pSync0 : SyncPolicy :=
  (syncInit .absent 0).1

/-- A reply envelope carrying a succeeded final result and no status. -/
def envFinalOk : Envelope :=
  ⟨some "0.7", "s1", none, "", some (.succeeded "42"), none, none, none⟩

/-- A reply envelope carrying a failed final result and no status. -/
def envFinalBad : Envelope :=
  ⟨some "0.7", "s1", none, "", some (.failed (.raised "ValueError" "bad")), none, none, none⟩

/-- A reply envelope carrying status=started. -/
def envStarted : Envelope :=
  ⟨some "0.7", "s2", none, "", none, some "started", none, none⟩

/-- A request envelope whose window is past at now = 100 and that carries
no replyto. -/
def envPastNoReply : Envelope :=
  ⟨some "0.7", "s3", none, "r", none, none, some ⟨0, 10⟩, none⟩

/-- A request envelope whose window is future at now = 100. -/
def envFuture : Envelope :=
  ⟨some "0.7", "s4", some "q4", "r", none, none, some ⟨200, 10⟩, none⟩

/-- A request envelope with neither replyto nor window. -/
def envBare : Envelope :=
  ⟨some "0.7", "s5", none, "r5", none, none, none, none⟩

/-- A request envelope whose version does not match protocol "0.7". -/
def envBadVer : Envelope :=
  ⟨some "0.6", "s6", some "q6", "r6", none, none, none, none⟩

/-- A dispatcher that answers every request with a succeeded Return. -/
def dfOk : String → RmiResult :=
  fun _ => .succeeded "ok"

/-- An Asynchronous policy with ctag c1, timeouts (5, 30), watchdog set. -/
def pAsync1 : AsyncPolicy :=
  asyncInit (some "c1") (.pair (some 5) (some 30)) true

end Gofer

namespace Gofer

theorem readerSearch_found_sn (sn : String) (q : List Envelope) (e : Envelope)
    (h : (readerSearch sn q).found = some e) : e.sn = sn := by
  induction q with
  | nil => simp [readerSearch] at h
  | cons x xs ih =>
    by_cases hx : x.sn = sn
    · simp [readerSearch, hx] at h
      simpa [← h] using hx
    · simp [readerSearch, hx] at h
      exact ih h

theorem readerSearch_acked_ne (sn : String) (q : List Envelope) (e : Envelope)
    (h : e ∈ (readerSearch sn q).acked) : e.sn ≠ sn := by
  induction q with
  | nil => simp [readerSearch] at h
  | cons x xs ih =>
    by_cases hx : x.sn = sn
    · simp [readerSearch, hx] at h
    · simp [readerSearch, hx] at h
      rcases h with h | h
      · simpa [h] using hx
      · exact ih h

theorem modelSearch_eq_readerSearch (sn : String) (q : List Envelope) :
    modelSearch sn q = readerSearch sn q := by
  induction q with
  | nil => rfl
  | cons x xs ih => simp [modelSearch, readerSearch, ih]

/-- C6: for every sn and reply queue, search returns either an envelope
whose sn equals the requested sn or none, and every envelope acked and
discarded during the search has a different sn, so a non-matching envelope
is never returned; this holds for the Reader of
src/gofer/messaging/consumer.py and for the transport Reader, whose search
delegates to the spec-modelled gofer.messaging.model.search. -/
theorem reader_search_matches_sn (sn : String) (q : List Envelope) :
    (∀ e, (readerSearch sn q).found = some e → e.sn = sn) ∧
    (∀ e, e ∈ (readerSearch sn q).acked → e.sn ≠ sn) ∧
    (∀ e, (modelSearch sn q).found = some e → e.sn = sn) ∧
    (∀ e, e ∈ (modelSearch sn q).acked → e.sn ≠ sn) := by
  refine ⟨fun e h => readerSearch_found_sn sn q e h,
          fun e h => readerSearch_acked_ne sn q e h,
          fun e h => ?_, fun e h => ?_⟩
  · exact readerSearch_found_sn sn q e (by simpa [modelSearch_eq_readerSearch] using h)
  · exact readerSearch_acked_ne sn q e (by simpa [modelSearch_eq_readerSearch] using h)

/-- Witness for reader_search_matches_sn at a concrete queue: searching
for sn-1 in a queue holding a non-matching envelope followed by envW
returns envW. -/
theorem reader_search_matches_sn_witness :
    envW.sn = "sn-1" :=
  (reader_search_matches_sn "sn-1"
    [⟨some "0.7", "sn-0", none, "r0", none, none, none, none⟩, envW]).1
    envW (by decide)

theorem syncSend_events_shape (p : SyncPolicy) (dest : String) (sn : String)
    (replies : List Envelope) :
    ∃ mid, (syncSend p dest sn replies).events =
      .produced dest sn p.timeout.1 p.queueName :: .readerOpened p.queueName ::
        (mid ++ [.readerClosed]) := by
  cases h1 : (readerSearch sn replies).found with
  | none => exact ⟨[], by simp [syncSend, h1]⟩
  | some env =>
    by_cases hs : optStrTruthy env.status
    · cases h2 : (readerSearch sn (readerSearch sn replies).rest).found with
      | none => exact ⟨[.acked], by simp [syncSend, h1, hs, h2]⟩
      | some env2 => exact ⟨[.acked, .acked], by simp [syncSend, h1, hs, h2]⟩
    · cases ho : onreply env.result with
      | remoteRaised x => exact ⟨[.acked], by simp [syncSend, h1, hs, ho]⟩
      | returned v =>
        cases h2 : (readerSearch sn (readerSearch sn replies).rest).found with
        | none => exact ⟨[.acked], by simp [syncSend, h1, hs, ho, h2]⟩
        | some env2 => exact ⟨[.acked, .acked], by simp [syncSend, h1, hs, ho, h2]⟩
      | requestTimeout tsn i =>
        cases h2 : (readerSearch sn (readerSearch sn replies).rest).found with
        | none => exact ⟨[.acked], by simp [syncSend, h1, hs, ho, h2]⟩
        | some env2 => exact ⟨[.acked, .acked], by simp [syncSend, h1, hs, ho, h2]⟩

/-- C1: when the first envelope matching the serial number carries a
final result instead of status=started, Synchronous.send handles a failed
result correctly (the reconstructed remote exception is raised), but a
succeeded result is swallowed: __getstarted discards the value returned
by __onreply, so send still waits for a further reply and, when none
arrives, raises RequestTimeout(sn, 1) instead of returning the value. -/
theorem sync_send_first_final_succeeded_swallowed :
    (syncSend pSync0 "dest" "s1" [envFinalOk]).outcome
      = .requestTimeout "s1" 1 ∧
    (syncSend pSync0 "dest" "s1" [envFinalBad]).outcome
      = .remoteRaised (.raised "ValueError" "bad") := by
  exact ⟨by decide, by decide⟩

/-- Counterexample to C2 as stated: on the same Synchronous policy
instance, two successive send calls name the same reply queue in their
produced requests, not distinct ones — the queue is allocated once in the
constructor. -/
theorem sync_send_shared_queue_counterexample :
    producedReplyTo (syncSend pSync0 "d" "a" []).events = some pSync0.queueName ∧
    producedReplyTo (syncSend pSync0 "d" "b" []).events = some pSync0.queueName ∧
    producedReplyTo (syncSend pSync0 "d" "a" []).events
      = producedReplyTo (syncSend pSync0 "d" "b" []).events := by
  exact ⟨by decide, by decide, by decide⟩

/-- C2 amended: the Synchronous constructor allocates the non-durable
private reply queue once, named by a fresh uuid (successive constructions
get distinct names); every send call produces the request with replyto
that queue, opens a reader on it, and closes the reader on return, normal
or exceptional; two send calls on the same instance use the same queue. -/
theorem sync_queue_per_instance (tm : TimeoutOpt) (ctr : Nat)
    (dest sn : String) (replies : List Envelope) :
    (syncInit tm ctr).1.queueName = ctr ∧
    (syncInit tm ctr).1.queueDurable = false ∧
    (syncInit tm ctr).2 = ctr + 1 ∧
    (syncInit tm ((syncInit tm ctr).2)).1.queueName ≠ (syncInit tm ctr).1.queueName ∧
    producedReplyTo (syncSend (syncInit tm ctr).1 dest sn replies).events = some ctr ∧
    SyncEvent.readerOpened ctr ∈ (syncSend (syncInit tm ctr).1 dest sn replies).events ∧
    (syncSend (syncInit tm ctr).1 dest sn replies).events.getLast? = some .readerClosed := by
  obtain ⟨mid, hm⟩ := syncSend_events_shape (syncInit tm ctr).1 dest sn replies
  refine ⟨rfl, rfl, rfl, Nat.succ_ne_self ctr, ?_, ?_, ?_⟩
  · rw [hm]
    rfl
  · rw [hm]
    simp [syncInit]
  · rw [hm]
    have h : (SyncEvent.produced dest sn (syncInit tm ctr).1.timeout.1
        (syncInit tm ctr).1.queueName :: SyncEvent.readerOpened (syncInit tm ctr).1.queueName ::
        (mid ++ [SyncEvent.readerClosed]))
      = (SyncEvent.produced dest sn (syncInit tm ctr).1.timeout.1
        (syncInit tm ctr).1.queueName :: SyncEvent.readerOpened (syncInit tm ctr).1.queueName ::
        mid) ++ [SyncEvent.readerClosed] := by
      simp
    rw [h, List.getLast?_concat]

/-- Witness for sync_queue_per_instance: a policy built at uuid counter 5
produces its request with replyto queue 5. -/
theorem sync_queue_per_instance_witness :
    producedReplyTo (syncSend (syncInit .absent 5).1 "d" "s" []).events = some 5 :=
  (sync_queue_per_instance .absent 5 "d" "s" []).2.2.2.2.1

/-- C4: Synchronous.send raises RequestTimeout(sn, 0) when the first
search finds no envelope bearing sn before its timeout (the reply list is
exhausted without a match), and RequestTimeout(sn, 1) when the STARTED
phase completed with a status=started envelope but the second search
finds no further envelope bearing sn. -/
theorem sync_send_timeout_indices (p : SyncPolicy) (dest sn : String)
    (replies : List Envelope) :
    ((readerSearch sn replies).found = none →
      (syncSend p dest sn replies).outcome = .requestTimeout sn 0) ∧
    (∀ env, (readerSearch sn replies).found = some env →
      optStrTruthy env.status = true →
      (readerSearch sn (readerSearch sn replies).rest).found = none →
      (syncSend p dest sn replies).outcome = .requestTimeout sn 1) := by
  constructor
  · intro h
    simp [syncSend, h]
  · intro env h1 hs h2
    simp [syncSend, h1, hs, h2]

/-- Witness for sync_send_timeout_indices: an empty reply queue yields
RequestTimeout(sn, 0); a queue holding only a started notification yields
RequestTimeout(sn, 1). -/
theorem sync_send_timeout_indices_witness :
    (syncSend pSync0 "d" "w" []).outcome = .requestTimeout "w" 0 ∧
    (syncSend pSync0 "d" "s2" [envStarted]).outcome = .requestTimeout "s2" 1 :=
  ⟨(sync_send_timeout_indices pSync0 "d" "w" []).1 (by decide),
   (sync_send_timeout_indices pSync0 "d" "s2" [envStarted]).2 envStarted
     (by decide) (by decide) (by decide)⟩

theorem sendreply_cases (e : Envelope) (r : RmiResult) :
    sendreply e r = [] ∨
    ∃ dst, e.replyto = some dst ∧ dst.isEmpty = false ∧
      sendreply e r = [.sent dst e.sn e.any none (some r)] := by
  unfold sendreply
  cases h : e.replyto with
  | none => exact Or.inl rfl
  | some s =>
    by_cases hs : s.isEmpty
    · exact Or.inl (by simp [hs])
    · exact Or.inr ⟨s, rfl, by simpa using hs, by simp [hs]⟩

theorem sendstarted_cases (e : Envelope) :
    sendstarted e = [] ∨
    ∃ dst, e.replyto = some dst ∧ dst.isEmpty = false ∧
      sendstarted e = [.sent dst e.sn e.any (some "started") none] := by
  unfold sendstarted
  cases h : e.replyto with
  | none => exact Or.inl rfl
  | some s =>
    by_cases hs : s.isEmpty
    · exact Or.inl (by simp [hs])
    · exact Or.inr ⟨s, rfl, by simpa using hs, by simp [hs]⟩

theorem sendreply_empty_of_falsy (e : Envelope) (r : RmiResult)
    (h : optStrTruthy e.replyto = false) : sendreply e r = [] := by
  unfold sendreply
  cases hr : e.replyto with
  | none => rfl
  | some s =>
    simp [optStrTruthy, hr] at h
    simp [h]

theorem sendstarted_empty_of_falsy (e : Envelope)
    (h : optStrTruthy e.replyto = false) : sendstarted e = [] := by
  unfold sendstarted
  cases hr : e.replyto with
  | none => rfl
  | some s =>
    simp [optStrTruthy, hr] at h
    simp [h]

theorem rcDispatch_filter_ack (df : String → RmiResult) (now : Int) (e : Envelope) :
    (rcDispatch df now e).filter isAck = [] := by
  unfold rcDispatch
  cases checkwindow now e with
  | pending => simp [isAck]
  | missed =>
    rcases sendreply_cases e (.failed (.windowMissed e.sn)) with h | ⟨d, _, _, h⟩ <;>
      simp [h, isAck]
  | ok =>
    rcases sendstarted_cases e with h | ⟨d, _, _, h⟩ <;>
      rcases sendreply_cases e (df e.request) with h2 | ⟨d2, _, _, h2⟩ <;>
        simp [h, h2, isAck]

/-- Counterexample to C3 as stated: an envelope whose window is past but
that carries no replyto produces no reply at all — rcDispatch yields an
empty trace, while the claim requires a WindowMissed reply to be sent for
every past-window envelope. -/
theorem dispatch_window_missed_counterexample :
    windowPast 100 envPastNoReply.window = true ∧
    windowFuture 100 envPastNoReply.window = false ∧
    rcDispatch dfOk 100 envPastNoReply = [] := by
  exact ⟨by decide, by decide, by decide⟩

/-- C3 amended: for every inbound envelope handled by
RequestConsumer.dispatch: if its window lies in the past, no handler is
invoked and, when the envelope carries a non-empty replyto, a reply whose
result is a failed WindowMissed Return bearing the envelope's sn is sent
(no reply when replyto is absent or empty); if its window lies in the
future, the envelope is added to the pending queue and no reply is
produced; otherwise, when a non-empty replyto is present a started status
is sent, the request is dispatched and the dispatch result is sent as the
final reply (only the dispatch occurs when replyto is absent or empty). -/
theorem dispatch_window_cases (df : String → RmiResult) (now : Int) (e : Envelope) :
    (windowFuture now e.window = true →
      rcDispatch df now e = [.pendingAdd e]) ∧
    (windowFuture now e.window = false → windowPast now e.window = true →
      (∀ a ∈ rcDispatch df now e, isDispatched a = false) ∧
      (∀ r, e.replyto = some r → r.isEmpty = false →
        rcDispatch df now e =
          [.sent r e.sn e.any none (some (.failed (.windowMissed e.sn)))]) ∧
      (optStrTruthy e.replyto = false → rcDispatch df now e = [])) ∧
    (windowFuture now e.window = false → windowPast now e.window = false →
      (∀ r, e.replyto = some r → r.isEmpty = false →
        rcDispatch df now e =
          [.sent r e.sn e.any (some "started") none,
           .dispatched e.request,
           .sent r e.sn e.any none (some (df e.request))]) ∧
      (optStrTruthy e.replyto = false →
        rcDispatch df now e = [.dispatched e.request])) := by
  refine ⟨?_, ?_, ?_⟩
  · intro hf
    simp [rcDispatch, checkwindow, hf]
  · intro hf hp
    have hcw : checkwindow now e = .missed := by simp [checkwindow, hf, hp]
    refine ⟨?_, ?_, ?_⟩
    · intro a ha
      simp [rcDispatch, hcw] at ha
      rcases sendreply_cases e (.failed (.windowMissed e.sn)) with h | ⟨d, _, _, h⟩
      · simp [h] at ha
      · simp [h] at ha
        simp [ha, isDispatched]
    · intro r hr hre
      simp [rcDispatch, hcw, sendreply, hr, hre]
    · intro hfalsy
      simp [rcDispatch, hcw, sendreply_empty_of_falsy e _ hfalsy]
  · intro hf hp
    have hcw : checkwindow now e = .ok := by simp [checkwindow, hf, hp]
    refine ⟨?_, ?_⟩
    · intro r hr hre
      simp [rcDispatch, hcw, sendstarted, sendreply, hr, hre]
    · intro hfalsy
      simp [rcDispatch, hcw, sendstarted_empty_of_falsy e hfalsy,
        sendreply_empty_of_falsy e _ hfalsy]

/-- Witness for dispatch_window_cases: a future-window envelope at
now = 100 is put on the pending queue and nothing else happens. -/
theorem dispatch_window_cases_witness :
    rcDispatch dfOk 100 envFuture = [.pendingAdd envFuture] :=
  (dispatch_window_cases dfOk 100 envFuture).1 (by decide)

/-- C5: Consumer.received acknowledges every inbound message exactly once,
and only once processing is over (the ack is the last action); the trace
is a total function of the envelope, so redelivery is never triggered by
the outcome of dispatch; an envelope whose version does not match the
running protocol is dropped without dispatch and still acked. -/
theorem received_acks_once (ver : String) (df : String → RmiResult)
    (now : Int) (e : Envelope) :
    ((received ver df now e).filter isAck).length = 1 ∧
    (received ver df now e).getLast? = some .acked ∧
    (e.version ≠ some ver → received ver df now e = [.acked]) := by
  refine ⟨?_, ?_, ?_⟩
  · unfold received
    by_cases hv : consumerValid ver e
    · simp [hv, List.filter_append, rcDispatch_filter_ack, isAck]
    · simp [hv, isAck]
  · unfold received
    rw [List.getLast?_concat]
  · intro h
    have hv : consumerValid ver e = false := beq_eq_false_iff_ne.mpr h
    simp [received, hv]

/-- Witness for received_acks_once: an envelope carrying version 0.6 on a
0.7 consumer is dropped and the trace is exactly one ack. -/
theorem received_acks_once_witness :
    received "0.7" dfOk 0 envBadVer = [.acked] :=
  (received_acks_once "0.7" dfOk 0 envBadVer).2.2 (by decide)

/-- C9: RequestConsumer sends the started and final replies only when the
inbound envelope carries a truthy replyto (a falsy replyto yields a trace
with no send at all, in every window case); an envelope with neither
replyto nor window is still dispatched and produces no outbound message. -/
theorem dispatch_replyto_gating (df : String → RmiResult) (now : Int) (e : Envelope) :
    (optStrTruthy e.replyto = false →
      ∀ a ∈ rcDispatch df now e, isSent a = false) ∧
    (e.replyto = none → e.window = none →
      rcDispatch df now e = [.dispatched e.request]) := by
  constructor
  · intro h a ha
    cases hcw : checkwindow now e with
    | pending =>
      simp [rcDispatch, hcw] at ha
      simp [ha, isSent]
    | missed =>
      simp [rcDispatch, hcw, sendreply_empty_of_falsy e _ h] at ha
    | ok =>
      simp [rcDispatch, hcw, sendstarted_empty_of_falsy e h,
        sendreply_empty_of_falsy e _ h] at ha
      simp [ha, isSent]
  · intro h1 h2
    simp [rcDispatch, checkwindow, windowFuture, windowPast, h2,
      sendreply, sendstarted, h1]

/-- Witness for dispatch_replyto_gating: an envelope with neither replyto
nor window dispatches and nothing is sent. -/
theorem dispatch_replyto_gating_witness :
    rcDispatch dfOk 0 envBare = [.dispatched envBare.request] :=
  (dispatch_replyto_gating dfOk 0 envBare).2 rfl rfl

theorem notifywatchdog_filter_produced (p : AsyncPolicy) (sn : String)
    (replyto : Option String) :
    (notifywatchdog p sn replyto).filter isProduced = [] := by
  unfold notifywatchdog
  split <;> simp [isProduced]

/-- C7: a Trigger is single-shot. A freshly constructed trigger is
pending; invoking a pending trigger sends the request exactly once (one
produced event) and clears the flag; invoking a non-pending trigger
raises the already-executed exception, sends nothing, and leaves the
state unchanged, so every invocation after the first fails. -/
theorem trigger_single_shot (p : AsyncPolicy) (t : TriggerState)
    (sn dest req : String) :
    (triggerInit sn dest req).pending = true ∧
    (t.pending = true →
      (triggerCall p t).1 = .sent ∧
      ((triggerCall p t).2.2.filter isProduced).length = 1 ∧
      (triggerCall p t).2.1.pending = false) ∧
    (t.pending = false →
      triggerCall p t = (.raisedAlreadyExecuted, t, [])) := by
  refine ⟨rfl, ?_, ?_⟩
  · intro h
    refine ⟨by simp [triggerCall, h], ?_, by simp [triggerCall, h]⟩
    simp [triggerCall, h, triggerSend, List.filter_cons, isProduced,
      notifywatchdog_filter_produced]
  · intro h
    simp [triggerCall, h]

/-- Witness for trigger_single_shot: calling an already-fired trigger
raises and sends nothing. -/
theorem trigger_single_shot_witness :
    triggerCall pAsync1 ⟨false, "sn", "d", "r"⟩
      = (.raisedAlreadyExecuted, ⟨false, "sn", "d", "r"⟩, []) :=
  (trigger_single_shot pAsync1 ⟨false, "sn", "d", "r"⟩ "sn" "d" "r").2.2 rfl

/-- C8: when a Trigger fires, the produced request carries
replyto = asyncReplyto p — the queue address of ctag when ctag is truthy,
none otherwise — and ttl the first timeout component; and the watchdog
tracks the request exactly when replyto is truthy, ctag is truthy, both
timeout components are present, and the watchdog reference is present. -/
theorem trigger_send_replyto_ttl_tracking (p : AsyncPolicy) (t : TriggerState) :
    (triggerSend p t).head?
      = some (.produced t.dest t.sn p.timeout.1 (asyncReplyto p)) ∧
    (p.ctag = none → asyncReplyto p = none) ∧
    (∀ c, p.ctag = some c → c.isEmpty = false →
      asyncReplyto p = some (queueStr c)) ∧
    hasTracked (triggerSend p t)
      = (optStrTruthy (asyncReplyto p) && optStrTruthy p.ctag &&
         (p.timeout.1).isSome && (p.timeout.2).isSome && p.watchdog) := by
  refine ⟨rfl, ?_, ?_, ?_⟩
  · intro h
    simp [asyncReplyto, h]
  · intro c h hce
    simp [asyncReplyto, h, hce]
  · by_cases hc : (optStrTruthy (asyncReplyto p) && optStrTruthy p.ctag &&
        (p.timeout.1).isSome && (p.timeout.2).isSome && p.watchdog) = true
    · simp [hasTracked, triggerSend, notifywatchdog, hc, isTracked, isProduced]
    · have hcf : (optStrTruthy (asyncReplyto p) && optStrTruthy p.ctag &&
          (p.timeout.1).isSome && (p.timeout.2).isSome && p.watchdog) = false := by
        simpa using hc
      simp [hasTracked, triggerSend, notifywatchdog, hcf, isTracked, isProduced]

/-- Witness for trigger_send_replyto_ttl_tracking: with ctag c1 the
replyto is the address of queue c1. -/
theorem trigger_send_replyto_ttl_tracking_witness :
    asyncReplyto pAsync1 = some (queueStr "c1") :=
  (trigger_send_replyto_ttl_tracking pAsync1 (triggerInit "sn" "d" "r")).2.2.1
    "c1" rfl (by decide)

/-- C10: an Asynchronous policy built from options whose timeout is None
normalizes its timeout to (None, None); consequently notifywatchdog never
tracks a request sent through that policy, whatever the ctag, watchdog
reference, replyto or trigger state, so no synthetic timeout reply can
ever be produced for such requests. -/
theorem async_none_timeout_never_tracked (ctag : Option String) (wd : Bool)
    (sn : String) (replyto : Option String) (t : TriggerState) :
    (asyncInit ctag .absent wd).timeout = (none, none) ∧
    notifywatchdog (asyncInit ctag .absent wd) sn replyto = [] ∧
    hasTracked (triggerSend (asyncInit ctag .absent wd) t) = false := by
  refine ⟨rfl, ?_, ?_⟩
  · simp [notifywatchdog, asyncInit, timeoutOf]
  · simp [hasTracked, triggerSend, notifywatchdog, asyncInit, timeoutOf, isTracked]

end Gofer
